import Mathlib

/-!
Verification of the LINE-bot webhook relay (`src/main.py`) against its
natural-language specification.

The Python program is shallowly embedded: the effects of the two outbound
HTTP collaborators (the Dify AI service and the LINE reply API) are
parameters of the embedded functions, fallible Python calls are modelled
with `Except`, and the observable outbound calls made during event
processing are recorded in an explicit effect trace.
-/

/-! ## AI Gateway: `query_dify` (src/main.py lines 133-186) -/

/-- Configuration read from the environment: `DIFY_API_BASE_URL` and
`DIFY_API_KEY` (src/main.py lines 35-36). -/
structure DifyConfig where
  baseUrl : String
  apiKey : String

/-- The outbound HTTP request `query_dify` builds before posting
(src/main.py lines 136-156): URL, headers, JSON payload fields and the
timeout passed to `requests.post`. -/
structure DifyRequest where
  url : String
  authorization : String
  contentType : String
  inputs : List (String × String)
  query : String
  response_mode : String
  user : String
  timeoutSeconds : Nat
deriving DecidableEq

/-- The request constructed by `query_dify(user_message, user_id)`
(src/main.py lines 136-146). -/
def dify_request (cfg : DifyConfig) (user_message user_id : String) : DifyRequest :=
  { url := cfg.baseUrl ++ "/chat-messages"
    authorization := "Bearer " ++ cfg.apiKey
    contentType := "application/json"
    inputs := []
    query := user_message
    response_mode := "blocking"
    user := user_id
    timeoutSeconds := 30 }

/-- Outcome of the `requests.post` call together with the subsequent body
parse: either an HTTP response was received (with its status code and the
result of `response.json()` — `.error` when the body is not valid JSON),
or the call raised `requests.exceptions.Timeout`, another
`requests.exceptions.RequestException` (transport-level failure), or some
other exception. -/
inductive DifyOutcome where
  | response (status : Nat) (body : Except String (List (String × String)))
  | timeout
  | requestError (msg : String)
  | otherError (msg : String)

/-- Exceptions that can escape the `try` block of `query_dify`, mirroring
the Python exception classes caught at src/main.py lines 173-186.
`jsonDecode` models `requests.exceptions.JSONDecodeError`, a subclass of
`RequestException`. -/
inductive ReqExc where
  | timeout
  | httpError (status : Nat)
  | jsonDecode (msg : String)
  | requestError (msg : String)
  | otherError (msg : String)
deriving DecidableEq

/-- Python `"k" in data` / `data["k"]` on the parsed JSON object
(JSON objects have unique keys). -/
def jsonLookup (data : List (String × String)) (k : String) : Option String :=
  (data.find? (fun p => p.1 == k)).map Prod.snd

/-- Fallback when the parsed body has neither `answer` nor `message`
(src/main.py line 171). -/
def fallbackNoAnswer : String := "申し訳ございません。応答の取得に失敗しました。"

/-- Fallback for `requests.exceptions.Timeout` (src/main.py line 175). -/
def fallbackTimeout : String := "申し訳ございません。応答に時間がかかりすぎています。しばらくしてから再度お試しください。"

/-- Fallback for `requests.exceptions.HTTPError` (src/main.py line 179). -/
def fallbackHTTP : String := "申し訳ございません。AIサービスでエラーが発生しました。"

/-- Fallback for other `requests.exceptions.RequestException`
(src/main.py line 182). -/
def fallbackTransport : String := "申し訳ございません。通信エラーが発生しました。"

/-- Fallback for any other exception (src/main.py line 186). -/
def fallbackUnexpected : String := "申し訳ございません。予期しないエラーが発生しました。"

/-- The `try` block of `query_dify` (src/main.py lines 135-171): post the
request, `raise_for_status` (raises `HTTPError` for status codes in
[400, 600)), parse the JSON body, and extract `answer`, else `message`,
else the no-answer fallback. `send` is the behaviour of the upstream
service for this call. -/
def query_dify_try (send : DifyRequest → DifyOutcome) (cfg : DifyConfig)
    (user_message user_id : String) : Except ReqExc String :=
  match send (dify_request cfg user_message user_id) with
  | .timeout => .error .timeout
  | .requestError m => .error (.requestError m)
  | .otherError m => .error (.otherError m)
  | .response status body =>
    if 400 ≤ status ∧ status < 600 then .error (.httpError status)
    else
      match body with
      | .error m => .error (.jsonDecode m)
      | .ok data =>
        match jsonLookup data "answer" with
        | some v => .ok v
        | none =>
          match jsonLookup data "message" with
          | some v => .ok v
          | none => .ok fallbackNoAnswer

/-- The `except` clauses of `query_dify` (src/main.py lines 173-186), in
source order: `Timeout`, then `HTTPError`, then `RequestException` (which
covers JSON-decode errors), then `Exception`. -/
def query_dify_rescue (e : ReqExc) : String :=
  match e with
  | .timeout => fallbackTimeout
  | .httpError _ => fallbackHTTP
  | .jsonDecode _ => fallbackTransport
  | .requestError _ => fallbackTransport
  | .otherError _ => fallbackUnexpected

/-- `query_dify(user_message, user_id)` (src/main.py lines 133-186): the
`try` block with every escaping exception resolved to its fallback
string. Totality of this function is the model of "never raises". -/
def query_dify (send : DifyRequest → DifyOutcome) (cfg : DifyConfig)
    (user_message user_id : String) : String :=
  match query_dify_try send cfg user_message user_id with
  | .ok s => s
  | .error e => query_dify_rescue e

example :
    query_dify (fun _ => .response 200 (.ok [("answer", "Hi there")]))
      ⟨"https://api.dify.ai/v1", "k"⟩ "Hello" "U1" = "Hi there" := by
  decide

example :
    query_dify (fun _ => .timeout) ⟨"b", "k"⟩ "Hello" "U1" = fallbackTimeout := by
  decide

example :
    query_dify (fun _ => .response 500 (.ok [("answer", "x")])) ⟨"b", "k"⟩ "m" "u"
      = fallbackHTTP := by
  decide

example :
    query_dify (fun _ => .response 200 (.ok [("message", "mm")])) ⟨"b", "k"⟩ "m" "u"
      = "mm" := by
  decide

example :
    query_dify (fun _ => .response 200 (.ok [("x", "y")])) ⟨"b", "k"⟩ "m" "u"
      = fallbackNoAnswer := by
  decide

/-! ## Event Processor: `handle_message` (src/main.py lines 86-130) -/

/-- One text-message event as extracted from the webhook envelope:
`event.message.text`, `event.source.user_id`, `event.reply_token`. -/
structure MessageEvent where
  text : String
  userId : String
  replyToken : String

/-- Exceptions at the event-processing / webhook layer:
`linebot.v3.exceptions.InvalidSignatureError` or any other exception
(carrying its message). -/
inductive PyExc where
  | invalidSignature
  | other (msg : String)

/-- Observable outbound calls made while processing events: an invocation
of `query_dify` (the AI Gateway) and an attempt to call
`line_bot_api.reply_message` (the LINE reply API), whether or not the
attempt succeeds. -/
inductive Effect where
  | aiCall (text userId : String)
  | replySend (replyToken text : String)

/-- Behaviour of the two collaborators during one request: `ai` is what the
call to `query_dify` does for a given `(text, userId)` (`.error` models the
hypothetical case that the call itself raises), and `reply` is what
`reply_message(reply_token, text)` does (`.error` models a raised
exception, e.g. network error or expired reply token). -/
structure World where
  ai : String → String → Except PyExc String
  reply : String → String → Except PyExc Unit

/-- The fallback text sent by the `except` branch of `handle_message`
(src/main.py line 126). -/
def errorFallbackText : String := "申し訳ございません。システムエラーが発生しました。しばらくしてから再度お試しください。"

/-- The `except Exception` branch of `handle_message` (src/main.py lines
115-130): attempt one reply with `errorFallbackText`; a failure of that
attempt is itself caught and only logged. -/
def handle_message_rescue (w : World) (event : MessageEvent) :
    Except PyExc Unit × List Effect :=
  match w.reply event.replyToken errorFallbackText with
  | .ok _ => (.ok (), [.replySend event.replyToken errorFallbackText])
  | .error _ => (.ok (), [.replySend event.replyToken errorFallbackText])

/-- `handle_message(event)` (src/main.py lines 86-130): query the AI
Gateway, reply with its answer; any exception in that sequence falls
through to `handle_message_rescue`. The first component is the exception
state handed back to the webhook handler, the second the trace of outbound
calls in order. -/
def handle_message (w : World) (event : MessageEvent) :
    Except PyExc Unit × List Effect :=
  match w.ai event.text event.userId with
  | .error _ =>
    let r := handle_message_rescue w event
    (r.1, .aiCall event.text event.userId :: r.2)
  | .ok dify_response =>
    match w.reply event.replyToken dify_response with
    | .ok _ => (.ok (), [.aiCall event.text event.userId,
                         .replySend event.replyToken dify_response])
    | .error _ =>
      let r := handle_message_rescue w event
      (r.1, .aiCall event.text event.userId
            :: .replySend event.replyToken dify_response :: r.2)

/-- The fallback attempt is always recorded, whether or not it succeeds. -/
theorem handle_message_rescue_eq (w : World) (event : MessageEvent) :
    handle_message_rescue w event
      = (.ok (), [.replySend event.replyToken errorFallbackText]) := by
  unfold handle_message_rescue
  cases w.reply event.replyToken errorFallbackText <;> rfl

/-- Case characterization of `handle_message`. -/
theorem handle_message_eq (w : World) (event : MessageEvent) :
    handle_message w event =
      match w.ai event.text event.userId with
      | .error _ =>
        (.ok (), [.aiCall event.text event.userId,
                  .replySend event.replyToken errorFallbackText])
      | .ok a =>
        match w.reply event.replyToken a with
        | .ok _ => (.ok (), [.aiCall event.text event.userId,
                             .replySend event.replyToken a])
        | .error _ =>
          (.ok (), [.aiCall event.text event.userId,
                    .replySend event.replyToken a,
                    .replySend event.replyToken errorFallbackText]) := by
  unfold handle_message
  simp only [handle_message_rescue_eq]

/-- `handle_message` always returns normally: every branch ends `.ok`. -/
theorem handle_message_ok (w : World) (event : MessageEvent) :
    (handle_message w event).1 = .ok () := by
  rw [handle_message_eq]
  split
  · rfl
  · split <;> rfl

/-! ## Webhook Receiver: `webhook` (src/main.py lines 59-83) -/

/-- Base64 alphabet used by `base64.b64encode`. -/
def b64alphabet : List Char :=
  "ABCDEFGHIJKLMNOPQRSTUVWXYZabcdefghijklmnopqrstuvwxyz0123456789+/".toList

/-- Character for a 6-bit group. -/
def b64char (n : Nat) : Char := b64alphabet.getD n 'A'

/-- Base64 encoding of a byte sequence, three bytes at a time with `=`
padding. -/
def base64chars : List Nat → List Char
  | [] => []
  | [a] => [b64char (a / 4), b64char (a % 4 * 16), '=', '=']
  | [a, b] => [b64char (a / 4), b64char (a % 4 * 16 + b / 16),
               b64char (b % 16 * 4), '=']
  | a :: b :: c :: rest =>
    b64char (a / 4) :: b64char (a % 4 * 16 + b / 16)
      :: b64char (b % 16 * 4 + c / 64) :: b64char (c % 64) :: base64chars rest

/-- `base64.b64encode(...)` decoded to a string, as the LINE SDK's
signature validator computes it. -/
def base64encode (l : List Nat) : String := String.mk (base64chars l)

/-- Environment of the webhook endpoint: the channel secret
(`LINE_CHANNEL_SECRET`), the HMAC-SHA256 primitive (external: maps key and
message to a 32-byte digest), and the SDK's parsing of the webhook envelope
into text-message events (external JSON schema; `.error` models a parse
exception). -/
structure LineEnv where
  channelSecret : String
  hmacSha256 : String → String → List Nat
  parseEvents : String → Except String (List MessageEvent)

/-- The LINE SDK's signature check: the header value must equal the
base64-encoded HMAC-SHA256 of the raw body under the channel secret. -/
def signatureOk (env : LineEnv) (body signature : String) : Bool :=
  signature == base64encode (env.hmacSha256 env.channelSecret body)

/-- Process the extracted events in order, invoking `handle_message` on
each; an exception escaping a handler would abort the remaining events
(the SDK's `handle` loop does not catch handler exceptions). -/
def processEvents (w : World) : List MessageEvent → Except PyExc Unit × List Effect
  | [] => (.ok (), [])
  | e :: rest =>
    let r := handle_message w e
    match r.1 with
    | .error ex => (.error ex, r.2)
    | .ok _ =>
      let rs := processEvents w rest
      (rs.1, r.2 ++ rs.2)

/-- `handler.handle(body_str, signature)` (the LINE SDK call at
src/main.py line 75): validate the signature (raising
`InvalidSignatureError` on mismatch), parse the envelope, then dispatch
each text-message event to `handle_message`. -/
def handler_handle (env : LineEnv) (w : World) (body signature : String) :
    Except PyExc Unit × List Effect :=
  if signatureOk env body signature then
    match env.parseEvents body with
    | .error m => (.error (.other m), [])
    | .ok events => processEvents w events
  else (.error .invalidSignature, [])

/-- An inbound POST to `/webhook`: raw body and the `X-Line-Signature`
header, absent when the request is unsigned. -/
structure InboundRequest where
  body : String
  signatureHeader : Option String

/-- The HTTP response of the `/webhook` endpoint: the 200
`{"status": "ok"}` acknowledgment, or the 400 `HTTPException`. -/
inductive WebhookResponse where
  | jsonOk
  | badRequest (detail : String)

/-- HTTP status code of a `/webhook` response. -/
def statusCode : WebhookResponse → Nat
  | .jsonOk => 200
  | .badRequest _ => 400

/-- Rendered body of a `/webhook` response. -/
def responseBody : WebhookResponse → String
  | .jsonOk => "\x7b\"status\":\"ok\"\x7d"
  | .badRequest d => "\x7b\"detail\":\"" ++ d ++ "\"\x7d"

/-- The `/webhook` endpoint (src/main.py lines 59-83): read the body, read
the `X-Line-Signature` header defaulting to the empty string, run
`handler.handle`; `InvalidSignatureError` becomes an
`HTTPException(400, "Invalid signature")`, any other exception is logged
and swallowed, and otherwise `{"status": "ok"}` is returned. -/
def webhook (env : LineEnv) (w : World) (req : InboundRequest) :
    WebhookResponse × List Effect :=
  let signature := req.signatureHeader.getD ""
  match handler_handle env w req.body signature with
  | (.ok _, fx) => (.jsonOk, fx)
  | (.error .invalidSignature, fx) => (.badRequest "Invalid signature", fx)
  | (.error (.other _), fx) => (.jsonOk, fx)

/-- `processEvents` never fails and traces every event in order. -/
theorem processEvents_eq (w : World) (events : List MessageEvent) :
    processEvents w events
      = (.ok (), (events.map (fun e => (handle_message w e).2)).flatten) := by
  induction events with
  | nil => rfl
  | cons e rest ih =>
    have h := handle_message_ok w e
    simp only [processEvents, h, ih, List.map_cons, List.flatten_cons]

/-- The character list of a base64 encoding of a non-empty byte sequence
is non-empty. -/
theorem base64chars_ne_nil (a : Nat) (l : List Nat) : base64chars (a :: l) ≠ [] := by
  cases l with
  | nil => simp [base64chars]
  | cons b l2 => cases l2 <;> simp [base64chars]

/-- A base64 encoding of a non-empty byte sequence is never the empty
string. -/
theorem base64encode_ne_empty (l : List Nat) (h : l ≠ []) :
    base64encode l ≠ "" := by
  cases l with
  | nil => exact absurd rfl h
  | cons a l2 =>
    intro hEq
    exact base64chars_ne_nil a l2 (congrArg String.data hEq)

/-- Case characterization of the `/webhook` endpoint. -/
theorem webhook_eq (env : LineEnv) (w : World) (req : InboundRequest) :
    webhook env w req =
      if signatureOk env req.body (req.signatureHeader.getD "") then
        match env.parseEvents req.body with
        | .error _ => (.jsonOk, [])
        | .ok events =>
          (.jsonOk, (events.map (fun e => (handle_message w e).2)).flatten)
      else (.badRequest "Invalid signature", []) := by
  by_cases h : signatureOk env req.body (req.signatureHeader.getD "")
  · simp only [webhook, handler_handle, h, if_true]
    cases hp : env.parseEvents req.body with
    | error m => rfl
    | ok events => simp [processEvents_eq]
  · simp [webhook, handler_handle, h]

/-! ## Sample collaborators used to instantiate the theorems -/

/-- Sample environment configuration for the AI Gateway. -/
def sampleCfg : DifyConfig := ⟨"https://api.dify.ai/v1", "key"⟩

/-- A well-behaved request world: the AI call answers, the reply succeeds. -/
def sampleWorld : World := ⟨fun _ _ => .ok "Hi there", fun _ _ => .ok ()⟩

/-- A sample text-message event. -/
def sampleEvent : MessageEvent := ⟨"Hello", "U1", "RT1"⟩

/-- A world whose reply API always raises. -/
def failingReplyWorld : World :=
  ⟨fun _ _ => .ok "Hi there", fun _ _ => .error (.other "network error")⟩

/-- A world whose AI call itself raises. -/
def failingAIWorld : World :=
  ⟨fun _ _ => .error (.other "boom"), fun _ _ => .ok ()⟩

/-- A sample webhook environment with a concrete digest primitive. -/
def sampleEnv : LineEnv :=
  { channelSecret := "secret"
    hmacSha256 := fun _ _ => List.replicate 32 0
    parseEvents := fun _ => .ok [⟨"Hello", "U1", "RT1"⟩] }

/-- Upstream behaviour answering 200 with an `answer` field. -/
def answerSend : DifyRequest → DifyOutcome :=
  fun _ => .response 200 (.ok [("answer", "Hi there")])

/-- Upstream behaviour answering 200 with an empty `answer` field. -/
def emptyAnswerSend : DifyRequest → DifyOutcome :=
  fun _ => .response 200 (.ok [("answer", "")])

/-- Number of reply-send attempts in a trace. -/
def replySendCount (fx : List Effect) : Nat :=
  (fx.filter (fun f => match f with | .replySend _ _ => true | _ => false)).length

/-! ## Claims -/

/-- Claim C1: for every input and upstream behaviour, `query_dify` returns
a string — it is a total `String`-valued function, so no exception reaches
its caller — and each of the four failure kinds (timeout, HTTP error
status, transport-level error, any other exception) maps deterministically
to its own fixed fallback string, the four fallbacks being pairwise
distinct. -/
theorem query_dify_failure_fallbacks
    (send : DifyRequest → DifyOutcome) (cfg : DifyConfig) (m u : String) :
    (send (dify_request cfg m u) = .timeout →
      query_dify send cfg m u = fallbackTimeout)
  ∧ (∀ s b, send (dify_request cfg m u) = .response s b →
      400 ≤ s → s < 600 → query_dify send cfg m u = fallbackHTTP)
  ∧ (∀ msg, send (dify_request cfg m u) = .requestError msg →
      query_dify send cfg m u = fallbackTransport)
  ∧ (∀ msg, send (dify_request cfg m u) = .otherError msg →
      query_dify send cfg m u = fallbackUnexpected)
  ∧ (fallbackTimeout ≠ fallbackHTTP ∧ fallbackTimeout ≠ fallbackTransport
      ∧ fallbackTimeout ≠ fallbackUnexpected
      ∧ fallbackHTTP ≠ fallbackTransport ∧ fallbackHTTP ≠ fallbackUnexpected
      ∧ fallbackTransport ≠ fallbackUnexpected) := by
  refine ⟨?_, ?_, ?_, ?_, by decide⟩
  · intro h
    simp [query_dify, query_dify_try, query_dify_rescue, h]
  · intro s b h h4 h6
    simp [query_dify, query_dify_try, query_dify_rescue, h, h4, h6]
  · intro msg h
    simp [query_dify, query_dify_try, query_dify_rescue, h]
  · intro msg h
    simp [query_dify, query_dify_try, query_dify_rescue, h]

/-- Witness for C1 at concrete upstream behaviours. -/
theorem query_dify_failure_fallbacks_witness :
    query_dify (fun _ => .timeout) sampleCfg "Hello" "U1" = fallbackTimeout
    ∧ query_dify (fun _ => .response 500 (.ok [])) sampleCfg "Hello" "U1"
        = fallbackHTTP
    ∧ query_dify (fun _ => .requestError "conn") sampleCfg "Hello" "U1"
        = fallbackTransport
    ∧ query_dify (fun _ => .otherError "boom") sampleCfg "Hello" "U1"
        = fallbackUnexpected :=
  ⟨(query_dify_failure_fallbacks (fun _ => .timeout) sampleCfg "Hello" "U1").1
      rfl,
   (query_dify_failure_fallbacks (fun _ => .response 500 (.ok [])) sampleCfg
      "Hello" "U1").2.1 500 (.ok []) rfl (by decide) (by decide),
   (query_dify_failure_fallbacks (fun _ => .requestError "conn") sampleCfg
      "Hello" "U1").2.2.1 "conn" rfl,
   (query_dify_failure_fallbacks (fun _ => .otherError "boom") sampleCfg
      "Hello" "U1").2.2.2.1 "boom" rfl⟩

/-- Claim C2: for every successful upstream HTTP response whose body
parses, `query_dify` returns the `answer` field when present, else the
`message` field when present, else the fixed no-answer fallback. -/
theorem query_dify_success_priority
    (send : DifyRequest → DifyOutcome) (cfg : DifyConfig) (m u : String)
    (s : Nat) (data : List (String × String))
    (hresp : send (dify_request cfg m u) = .response s (.ok data))
    (hsucc : ¬(400 ≤ s ∧ s < 600)) :
    (∀ v, jsonLookup data "answer" = some v → query_dify send cfg m u = v)
  ∧ (jsonLookup data "answer" = none →
      ∀ v, jsonLookup data "message" = some v → query_dify send cfg m u = v)
  ∧ (jsonLookup data "answer" = none → jsonLookup data "message" = none →
      query_dify send cfg m u = fallbackNoAnswer) := by
  refine ⟨?_, ?_, ?_⟩
  · intro v hv
    simp [query_dify, query_dify_try, hresp, hsucc, hv]
  · intro ha v hv
    simp [query_dify, query_dify_try, hresp, hsucc, ha, hv]
  · intro ha hm
    simp [query_dify, query_dify_try, hresp, hsucc, ha, hm]

/-- Witness for C2: a 200 response carrying an `answer` field is returned
verbatim. -/
theorem query_dify_success_priority_witness :
    query_dify answerSend sampleCfg "Hello" "U1" = "Hi there" :=
  (query_dify_success_priority answerSend sampleCfg "Hello" "U1" 200
      [("answer", "Hi there")] rfl (by decide)).1 "Hi there" rfl

/-- Claim C3: a POST to `/webhook` whose signature does not verify gets an
HTTP 400; one whose signature verifies gets a 200 with body
`{"status":"ok"}`, whatever the collaborators (and hence event processing)
do. -/
theorem webhook_status_decoupled (env : LineEnv) (w : World)
    (req : InboundRequest) :
    (signatureOk env req.body (req.signatureHeader.getD "") = false →
      (webhook env w req).1 = .badRequest "Invalid signature"
      ∧ statusCode (webhook env w req).1 = 400)
  ∧ (signatureOk env req.body (req.signatureHeader.getD "") = true →
      (webhook env w req).1 = .jsonOk
      ∧ statusCode (webhook env w req).1 = 200
      ∧ responseBody (webhook env w req).1 = "\x7b\"status\":\"ok\"\x7d") := by
  constructor
  · intro h
    rw [webhook_eq, h]
    exact ⟨rfl, rfl⟩
  · intro h
    have hfst : (webhook env w req).1 = .jsonOk := by
      rw [webhook_eq, h]
      cases env.parseEvents req.body <;> rfl
    refine ⟨hfst, ?_, ?_⟩ <;> rw [hfst] <;> rfl

/-- Witness for C3: a wrong signature is rejected with 400; the matching
signature is acknowledged with 200 even though the sample world is
arbitrary. -/
theorem webhook_status_decoupled_witness :
    ((webhook sampleEnv failingReplyWorld ⟨"b", some "x"⟩).1
        = .badRequest "Invalid signature"
      ∧ statusCode (webhook sampleEnv failingReplyWorld ⟨"b", some "x"⟩).1 = 400)
    ∧ ((webhook sampleEnv failingReplyWorld
          ⟨"b", some (base64encode (List.replicate 32 0))⟩).1 = .jsonOk
      ∧ statusCode (webhook sampleEnv failingReplyWorld
          ⟨"b", some (base64encode (List.replicate 32 0))⟩).1 = 200
      ∧ responseBody (webhook sampleEnv failingReplyWorld
          ⟨"b", some (base64encode (List.replicate 32 0))⟩).1
          = "\x7b\"status\":\"ok\"\x7d") :=
  ⟨(webhook_status_decoupled sampleEnv failingReplyWorld ⟨"b", some "x"⟩).1
      (by decide),
   (webhook_status_decoupled sampleEnv failingReplyWorld
      ⟨"b", some (base64encode (List.replicate 32 0))⟩).2 (by decide)⟩

/-- Claim C6: when the signature does not verify, the effect trace is
empty — no AI Gateway call and no reply-API call happens for any event of
the payload. -/
theorem invalid_signature_no_processing (env : LineEnv) (w : World)
    (req : InboundRequest)
    (h : signatureOk env req.body (req.signatureHeader.getD "") = false) :
    (webhook env w req).2 = []
    ∧ (webhook env w req).1 = .badRequest "Invalid signature" := by
  rw [webhook_eq, h]
  exact ⟨rfl, rfl⟩

/-- Witness for C6 at a concrete mis-signed request. -/
theorem invalid_signature_no_processing_witness :
    (webhook sampleEnv sampleWorld ⟨"b", some "x"⟩).2 = []
    ∧ (webhook sampleEnv sampleWorld ⟨"b", some "x"⟩).1
        = .badRequest "Invalid signature" :=
  invalid_signature_no_processing sampleEnv sampleWorld ⟨"b", some "x"⟩
    (by decide)

/-- Claim C10: a request with no `X-Line-Signature` header is checked with
the empty string as signature; since the expected signature is the base64
encoding of a 32-byte HMAC-SHA256 digest, which is never empty, the check
fails, the endpoint answers 400 and no event processing occurs. -/
theorem unsigned_request_rejected (env : LineEnv) (w : World) (body : String)
    (hdig : (env.hmacSha256 env.channelSecret body).length = 32) :
    signatureOk env body ((none : Option String).getD "") = false
    ∧ webhook env w ⟨body, none⟩ = (.badRequest "Invalid signature", []) := by
  have hne : env.hmacSha256 env.channelSecret body ≠ [] := by
    intro hnil
    rw [hnil] at hdig
    simp at hdig
  have hb : base64encode (env.hmacSha256 env.channelSecret body) ≠ "" :=
    base64encode_ne_empty _ hne
  have hsig : signatureOk env body ((none : Option String).getD "") = false := by
    simp [signatureOk, Option.getD]
    exact fun hEq => hb hEq.symm
  refine ⟨hsig, ?_⟩
  rw [webhook_eq]
  simp only [hsig]
  rfl

/-- Witness for C10 at a concrete unsigned request. -/
theorem unsigned_request_rejected_witness :
    signatureOk sampleEnv "b" ((none : Option String).getD "") = false
    ∧ webhook sampleEnv sampleWorld ⟨"b", none⟩
        = (.badRequest "Invalid signature", []) :=
  unsigned_request_rejected sampleEnv sampleWorld "b" (by decide)

/-- Claim C4 counterexample: when the reply send fails, `handle_message`
does swallow the failure, but a second send attempt (with the error
fallback text) is made for the same event — the trace of the concrete
failing world holds two reply-send attempts, refuting "no second send
attempt is made". -/
theorem reply_failure_second_send_cex :
    (handle_message failingReplyWorld sampleEvent).1 = .ok ()
    ∧ replySendCount (handle_message failingReplyWorld sampleEvent).2 = 2 :=
  ⟨rfl, rfl⟩

/-- Claim C4 as amended: when the reply send fails, the failure is caught
and never propagates, the original answer is never re-sent, and exactly
one further send attempt is made, carrying the generic error fallback
text; a failure of that attempt is swallowed with no further attempt. -/
theorem reply_failure_swallowed_one_fallback
    (w : World) (e : MessageEvent) (a : String) (ex : PyExc)
    (hai : w.ai e.text e.userId = .ok a)
    (hr : w.reply e.replyToken a = .error ex) :
    (handle_message w e).1 = .ok ()
    ∧ (handle_message w e).2
        = [.aiCall e.text e.userId, .replySend e.replyToken a,
           .replySend e.replyToken errorFallbackText] := by
  simp only [handle_message_eq, hai, hr]
  constructor <;> trivial

/-- Witness for the amended C4 in the concrete failing-reply world. -/
theorem reply_failure_swallowed_one_fallback_witness :
    (handle_message failingReplyWorld sampleEvent).1 = .ok ()
    ∧ (handle_message failingReplyWorld sampleEvent).2
        = [.aiCall "Hello" "U1", .replySend "RT1" "Hi there",
           .replySend "RT1" errorFallbackText] :=
  reply_failure_swallowed_one_fallback failingReplyWorld sampleEvent
    "Hi there" (.other "network error") rfl rfl

/-- Claim C5: when the AI Gateway invocation itself raises, `handle_message`
catches it, and exactly one reply send is attempted, carrying the generic
error fallback text; nothing propagates out of event processing. -/
theorem ai_error_single_fallback_reply
    (w : World) (e : MessageEvent) (ex : PyExc)
    (hai : w.ai e.text e.userId = .error ex) :
    (handle_message w e).1 = .ok ()
    ∧ (handle_message w e).2
        = [.aiCall e.text e.userId, .replySend e.replyToken errorFallbackText] := by
  simp only [handle_message_eq, hai]
  constructor <;> trivial

/-- Witness for C5 in the concrete failing-AI world. -/
theorem ai_error_single_fallback_reply_witness :
    (handle_message failingAIWorld sampleEvent).1 = .ok ()
    ∧ (handle_message failingAIWorld sampleEvent).2
        = [.aiCall "Hello" "U1", .replySend "RT1" errorFallbackText] :=
  ai_error_single_fallback_reply failingAIWorld sampleEvent (.other "boom") rfl

/-- Claim C9: `handle_message` never raises — for every behaviour of the
collaborators its exception state is `.ok` — so a whole payload of events
is always processed to the end, each event contributing its own trace. -/
theorem handle_message_never_raises (w : World) (e : MessageEvent)
    (events : List MessageEvent) :
    (handle_message w e).1 = .ok ()
    ∧ processEvents w events
        = (.ok (), (events.map (fun ev => (handle_message w ev).2)).flatten) :=
  ⟨handle_message_ok w e, processEvents_eq w events⟩

/-- Claim C7 counterexample: an upstream 200 response whose `answer` field
is the empty string makes `query_dify` return the empty string, refuting
"never empty". -/
theorem query_dify_empty_answer_cex :
    query_dify emptyAnswerSend sampleCfg "Hello" "U1" = "" := rfl

/-- The five fallback strings of `query_dify`. -/
def fallbackStrings : List String :=
  [fallbackNoAnswer, fallbackTimeout, fallbackHTTP, fallbackTransport,
   fallbackUnexpected]

/-- The field value a parsed, non-error upstream response supplies:
`answer` if present, else `message`. -/
def upstreamFieldValue : DifyOutcome → Option String
  | .response s (.ok data) =>
    if 400 ≤ s ∧ s < 600 then none
    else
      match jsonLookup data "answer" with
      | some v => some v
      | none => jsonLookup data "message"
  | _ => none

/-- Claim C7 as amended: `query_dify` always returns a string (never
null); it is either exactly the upstream-supplied `answer`/`message` field
value — which may be empty — or one of the five fixed fallback strings,
all of which are non-empty. -/
theorem query_dify_value_or_nonempty_fallback
    (send : DifyRequest → DifyOutcome) (cfg : DifyConfig) (m u : String) :
    (∃ v, upstreamFieldValue (send (dify_request cfg m u)) = some v
          ∧ query_dify send cfg m u = v)
  ∨ (query_dify send cfg m u ∈ fallbackStrings
      ∧ ∀ s ∈ fallbackStrings, s ≠ "") := by
  cases ho : send (dify_request cfg m u) with
  | timeout =>
    right
    simp only [query_dify, query_dify_try, ho, query_dify_rescue]
    exact ⟨by decide, by decide⟩
  | requestError msg =>
    right
    simp only [query_dify, query_dify_try, ho, query_dify_rescue]
    exact ⟨by decide, by decide⟩
  | otherError msg =>
    right
    simp only [query_dify, query_dify_try, ho, query_dify_rescue]
    exact ⟨by decide, by decide⟩
  | response s body =>
    by_cases hs : 400 ≤ s ∧ s < 600
    · right
      simp only [query_dify, query_dify_try, ho, if_pos hs, query_dify_rescue]
      exact ⟨by decide, by decide⟩
    · cases body with
      | error msg =>
        right
        simp only [query_dify, query_dify_try, ho, if_neg hs, query_dify_rescue]
        exact ⟨by decide, by decide⟩
      | ok data =>
        cases hA : jsonLookup data "answer" with
        | some v =>
          left
          refine ⟨v, ?_, ?_⟩
          · simp [upstreamFieldValue, hs, hA]
          · simp [query_dify, query_dify_try, ho, hs, hA]
        | none =>
          cases hM : jsonLookup data "message" with
          | some v =>
            left
            refine ⟨v, ?_, ?_⟩
            · simp [upstreamFieldValue, hs, hA, hM]
            · simp [query_dify, query_dify_try, ho, hs, hA, hM]
          | none =>
            right
            simp only [query_dify, query_dify_try, ho, if_neg hs, hA, hM]
            exact ⟨by decide, by decide⟩

/-- Claim C8: the outbound request of `query_dify` is a POST to
`{baseURL}/chat-messages` with bearer authorization, the exact JSON body
`{inputs: {}, query: text, response_mode: "blocking", user: userId}` and a
30-second timeout; moreover `query_dify` consults the upstream only at
exactly that request. -/
theorem dify_request_shape (send send2 : DifyRequest → DifyOutcome)
    (cfg : DifyConfig) (m u : String) :
    dify_request cfg m u
      = { url := cfg.baseUrl ++ "/chat-messages"
          authorization := "Bearer " ++ cfg.apiKey
          contentType := "application/json"
          inputs := []
          query := m
          response_mode := "blocking"
          user := u
          timeoutSeconds := 30 }
    ∧ (send (dify_request cfg m u) = send2 (dify_request cfg m u) →
        query_dify send cfg m u = query_dify send2 cfg m u) := by
  refine ⟨rfl, fun h => ?_⟩
  unfold query_dify query_dify_try
  rw [h]

/-- Witness for C8 at concrete configuration and inputs. -/
theorem dify_request_shape_witness :
    dify_request sampleCfg "Hello" "U1"
      = { url := "https://api.dify.ai/v1/chat-messages"
          authorization := "Bearer key"
          contentType := "application/json"
          inputs := []
          query := "Hello"
          response_mode := "blocking"
          user := "U1"
          timeoutSeconds := 30 }
    ∧ query_dify answerSend sampleCfg "Hello" "U1"
        = query_dify answerSend sampleCfg "Hello" "U1" := by
  have h := dify_request_shape answerSend answerSend sampleCfg "Hello" "U1"
  exact ⟨h.1.trans (by decide), h.2 rfl⟩
